import Mathlib

/-!
Verification of the help-text parser and table formatter of `argdoc`
(`ext.py`).  The Python module is shallowly embedded: each function of the
source becomes a Lean definition over explicit state, Python exceptions
become an `Except` error type, and the regular expressions of the
`patterns` table are compiled by hand into executable matchers over
`List Char` whose semantics follow Python's `re` engine (leftmost match,
greedy quantifiers with backtracking priority).  External subprocess
invocation is abstracted as an oracle function supplied by the caller;
the commands issued and the warnings emitted are returned alongside the
result so that call counts and diagnostics can be stated.
-/

/-! ## Python character classes and string primitives -/

/-- Python whitespace (`\s` in a bytes pattern, and the default strip set). -/
def isPySpace (c : Char) : Bool :=
  [' ', '\t', '\n', '\r', '\x0b', '\x0c'].contains c

/-- Python `\w` word character (ASCII): letters, digits, underscore. -/
def isWordChar (c : Char) : Bool :=
  c.isAlphanum || c == '_'

/-- Python `str.rstrip()`: drop trailing whitespace. -/
def pyRstrip (s : String) : String :=
  ⟨(s.data.reverse.dropWhile isPySpace).reverse⟩

/-- Python `str.strip()`: drop whitespace at both ends. -/
def pyStrip (s : String) : String :=
  ⟨((s.data.dropWhile isPySpace).reverse.dropWhile isPySpace).reverse⟩

/-- Python `str.strip("\n")`: drop only newline characters at both ends. -/
def pyStripNl (s : String) : String :=
  ⟨((s.data.dropWhile (· == '\n')).reverse.dropWhile (· == '\n')).reverse⟩

/-- List version of `startswith`. -/
def listStartsWith : List Char → List Char → Bool
  | [], _ => true
  | _, [] => false
  | a :: as, b :: bs => a == b && listStartsWith as bs

/-- Python `str.startswith(p)`. -/
def pyStartsWith (s p : String) : Bool :=
  listStartsWith p.data s.data

/-- Python `str.capitalize()`: first character upper-cased, the rest lower-cased. -/
def pyCapitalize (s : String) : String :=
  match s.data with
  | [] => ""
  | c :: rest => ⟨Char.toUpper c :: rest.map Char.toLower⟩

/-- Python `str.split(sep)` for a one-character separator (keeps empty chunks). -/
def splitOnChar (sep : Char) : List Char → List (List Char)
  | [] => [[]]
  | c :: rest =>
    let r := splitOnChar sep rest
    if c == sep then [] :: r
    else
      match r with
      | h :: t => (c :: h) :: t
      | [] => [[c]]

/-- Python `c * n` string repetition (`"="*n` and friends). -/
def chRepeat (c : Char) (n : Nat) : String :=
  ⟨List.replicate n c⟩

/-- Python `max` over a list of naturals (used on nonempty length lists). -/
def pyMax (l : List Nat) : Nat :=
  l.foldl Nat.max 0

/-! ## The `patterns` table, compiled to executable matchers

Each matcher takes the (already `rstrip`-ed) line as a `List Char` and
decides whether the corresponding regular expression of `ext.py` matches,
returning the capture groups the source actually uses. -/

/-- Pattern `section_title`: `^(\w+.*):$`.  Matches a line that starts with a
word character and ends with a colon; group 1 is everything before the final
colon (the `.*` is greedy; `.` excludes newlines). -/
def matchSectionTitle (l : List Char) : Option (List Char) :=
  match l with
  | [] => none
  | c :: rest =>
    let g := (c :: rest).dropLast
    if isWordChar c && ((c :: rest).getLast? == some ':')
        && !g.isEmpty && !g.contains '\n' then
      some g
    else none

/-- Pattern `continue_desc`: `^ {24}(.*)` — the line begins with at least 24
spaces.  (The group is not used by the source, which appends the whole line.) -/
def matchContinueDesc (l : List Char) : Bool :=
  decide (24 ≤ l.length) && (l.take 24).all (fun c => c == ' ')

/-- Scanner for the body of `section_desc` after the leading literal space.
Mode 0: expecting the `\s` that opens a group; mode 1: expecting the first
`[^- ]` character of a group; mode 2: inside a `[^- ]+` run (may end, extend,
or start a new group).  Greedily extending the run is complete here because a
token character admits strictly more continuations than a group opener. -/
def sdScan : Nat → List Char → Bool
  | 2, [] => true
  | _, [] => false
  | 0, c :: rest => isPySpace c && sdScan 1 rest
  | 1, c :: rest => !(c == '-') && !(c == ' ') && sdScan 2 rest
  | 2, c :: rest =>
    if !(c == '-') && !(c == ' ') then sdScan 2 rest
    else if isPySpace c then sdScan 1 rest
    else false
  | _ + 3, _ => false

/-- Pattern `section_desc`: `^ (\s[^- ]+)+$`. -/
def matchSectionDesc (l : List Char) : Bool :=
  match l with
  | c :: body => c == ' ' && sdScan 0 body
  | [] => false

/-- No whitespace characters at all (`[^\s]+` runs). -/
def noWsL (l : List Char) : Bool :=
  l.all (fun c => !isPySpace c)

/-- No hyphen characters (`[^-\s]+` runs, whitespace checked separately). -/
def noDash (l : List Char) : Bool :=
  l.all (fun c => !(c == '-'))

/-- Body check for `opt_only` after the two leading spaces:
`(-?[^\s]+(, --[^\s]+)?)$`.  Either the body is a single nonempty
whitespace-free token, or its unique whitespace character is the space of the
literal `, --` separating two nonempty whitespace-free parts. -/
def optOnlyBody (body : List Char) : Bool :=
  match body.findIdx? isPySpace with
  | none => !body.isEmpty
  | some i =>
    decide (2 ≤ i) && (body.get? (i - 1) == some ',') && (body.get? i == some ' ')
      && (body.get? (i + 1) == some '-') && (body.get? (i + 2) == some '-')
      && (let b := body.drop (i + 3); !b.isEmpty && noWsL b)

/-- Pattern `opt_only`: `^  (-?[^\s]+(, --[^\s]+)?)$`. -/
def matchOptOnly (l : List Char) : Bool :=
  match l with
  | c1 :: c2 :: body => c1 == ' ' && c2 == ' ' && optOnlyBody body
  | _ => false

/-- Every whitespace character is a plain space (the option patterns only ever
match literal `' '` or `[^\s]` characters). -/
def wsOnlySpaces (l : List Char) : Bool :=
  l.all (fun c => !isPySpace c || c == ' ')

/-- A token of shape `-+[^\s]+` / `-?-[^\s]+`: begins with `-`, length ≥ 2. -/
def startsDashLen2 (t : List Char) : Bool :=
  match t with
  | c :: _ :: _ => c == '-'
  | _ => false

/-- A token of shape `--[^\s]+`: begins with `--`, length ≥ 3. -/
def twoDashTok (t : List Char) : Bool :=
  match t with
  | a :: b :: _ :: _ => a == '-' && b == '-'
  | _ => false

/-- After the comma token of `opt_plus_args`, the rest of the tokens must be a
`--`-token followed by at least one further token. -/
def ddThenNonempty : List (List Char) → Bool
  | dd :: ns => twoDashTok dd && !ns.isEmpty
  | [] => false

/-- Token-list check for the part of `opt_plus_args` after the option token:
`((?: [^-\s]+)+)(?:(?:, (--[^\s]+))((?: [^\s]+)+))?$`.  Either all tokens are
hyphen-free metavariables, or a hyphen-free token ending in the literal comma
is followed by a `--`-token and at least one trailing token. -/
def argsTailScan : List (List Char) → Bool
  | [] => false
  | [t] => noDash t
  | t :: rest =>
    (noDash t && argsTailScan rest)
      || (noDash t && (t.getLast? == some ',') && decide (2 ≤ t.length)
            && ddThenNonempty rest)

/-- Pattern `opt_plus_args`:
`^  (-+[^\s]+)((?: [^-\s]+)+)(?:(?:, (--[^\s]+))((?: [^\s]+)+))?$`. -/
def matchOptPlusArgs (l : List Char) : Bool :=
  match l with
  | c1 :: c2 :: body =>
    c1 == ' ' && c2 == ' ' && wsOnlySpaces body
      && (let toks := splitOnChar ' ' body
          toks.all (fun t => !t.isEmpty)
            && match toks with
               | t0 :: rest => startsDashLen2 t0 && !rest.isEmpty && argsTailScan rest
               | [] => false)
  | _ => false

/-- Pattern `opt_plus_desc`:
`^  (?P<left>-?[^\s]+(,\s--[^\s]+)?)\s\s+(?P<right>.*)` with its two named
groups.  The engine takes the longest first token; if fewer than two
whitespace characters follow it, the optional `,\s--…` extension applies only
when the first token ends in the comma and exactly one whitespace character
separates it from a `--`-token that is itself followed by two or more
whitespace characters.  The greedy `\s\s+` consumes the whole whitespace run,
so `right` starts at the next non-whitespace character. -/
def matchOptPlusDesc (l : List Char) : Option (List Char × List Char) :=
  match l with
  | c1 :: c2 :: body =>
    if c1 == ' ' && c2 == ' ' then
      let tok1 := body.takeWhile (fun c => !isPySpace c)
      if tok1.isEmpty then none
      else
        let rest1 := body.drop tok1.length
        let ws1 := rest1.takeWhile isPySpace
        let rem1 := rest1.drop ws1.length
        if 2 ≤ ws1.length then some (tok1, rem1)
        else if ws1.length == 1 && (tok1.getLast? == some ',')
            && decide (2 ≤ tok1.length) then
          let tok2 := rem1.takeWhile (fun c => !isPySpace c)
          if twoDashTok tok2 then
            let rest2 := rem1.drop tok2.length
            let ws2 := rest2.takeWhile isPySpace
            if 2 ≤ ws2.length then
              some (tok1 ++ ws1 ++ tok2, rest2.drop ws2.length)
            else none
          else none
        else none
    else none
  | _ => none

/-- Tail check for the left span of `opt_plus_args_desc` after its option
token: `( [^-\s]+)+( --[^\s]+( [^\s]+)+)?`.  A nonempty run of hyphen-free
tokens, optionally followed by a `--`-token and at least one further token. -/
def adTailScan : List (List Char) → Bool
  | [] => false
  | [t] => noDash t
  | t :: rest => noDash t && (adTailScan rest || ddThenNonempty rest)

/-- Index of the first occurrence of two consecutive spaces. -/
def findDoubleSpace : List Char → Option Nat
  | c1 :: c2 :: rest =>
    if c1 == ' ' && c2 == ' ' then some 0
    else (findDoubleSpace (c2 :: rest)).map (· + 1)
  | _ => none

/-- Pattern `opt_plus_args_desc`:
`^  (?P<left>(-?-[^\s]+)( [^-\s]+)+( --[^\s]+( [^\s]+)+)?)  +(?P<right>\w+.*)$`.
All separators inside `left` are single spaces, so the gap `  +` is the first
double space of the body; `right` is everything after that (greedy) space run
and must begin with a word character. -/
def matchOptPlusArgsDesc (l : List Char) : Option (List Char × List Char) :=
  match l with
  | c1 :: c2 :: body =>
    if c1 == ' ' && c2 == ' ' then
      match findDoubleSpace body with
      | none => none
      | some g =>
        let leftSpan := body.take g
        let afterGap := (body.drop g).dropWhile (fun c => c == ' ')
        let okLeft := wsOnlySpaces leftSpan
          && (let toks := splitOnChar ' ' leftSpan
              toks.all (fun t => !t.isEmpty)
                && match toks with
                   | t0 :: rest => startsDashLen2 t0 && !rest.isEmpty && adTailScan rest
                   | [] => false)
        match afterGap with
        | [] => none
        | c :: _ => if okLeft && isWordChar c then some (leftSpan, afterGap) else none
    else none
  | _ => none

/-- Pattern `subcommand_names`: `^  {((?:\w+)(?:(?:,(?:\w+))+)?)}$`.  Group 1
is the comma-separated list of word-character names between the braces. -/
def matchSubcommandNames (l : List Char) : Option (List Char) :=
  match l with
  | c1 :: c2 :: c3 :: rest =>
    if c1 == ' ' && c2 == ' ' && c3 == '\x7b' && (rest.getLast? == some '\x7d') then
      let inner := rest.dropLast
      if (splitOnChar ',' inner).all (fun t => !t.isEmpty && t.all isWordChar) then
        some inner
      else none
    else none
  | _ => none

/-! ## Errors raised by the embedded Python code -/

/-- Python exceptions the embedded code can raise. -/
inductive PyErr where
  /-- `col2[-1]` on an empty list. -/
  | indexError : PyErr
  /-- `match.groups()` when `search` returned `None`. -/
  | attributeError : PyErr
  /-- use of a name that was never bound: `subcommands` when no
  subcommand-name line is found (line 134), and `ConfigError` itself at
  line 360, a name that is never imported or defined in the module. -/
  | nameError : PyErr
  /-- the `OSError` raised by `subprocess.Popen` when a command cannot be
  invoked; nothing in the source catches it. -/
  | osError : PyErr
deriving DecidableEq, Repr

/-- Outcome of `subprocess.Popen(call, stdout=PIPE)` followed by
`communicate()[0].split("\n")` for one command.  `communicate` returns the
captured standard output whatever the exit status — the source never
inspects the status, and `Popen`/`communicate` never raise the
`subprocess.CalledProcessError` that lines 144 and 368 try to catch (only
`check_call`/`check_output` raise it) — while a failed invocation raises
`OSError` from `Popen` itself. -/
inductive SubprocResult where
  | captured (help_lines : List String) : SubprocResult
  | osError : SubprocResult
deriving DecidableEq, Repr

/-- Decidable equality for `Except`, so that concrete runs of the embedded
functions can be checked by `decide`. -/
instance {ε α : Type} [DecidableEq ε] [DecidableEq α] : DecidableEq (Except ε α) := fun a b =>
  match a, b with
  | .ok x, .ok y => if h : x = y then .isTrue (by rw [h]) else .isFalse (by simp [h])
  | .error x, .error y => if h : x = y then .isTrue (by rw [h]) else .isFalse (by simp [h])
  | .ok _, .error _ => .isFalse (by simp)
  | .error _, .ok _ => .isFalse (by simp)

/-! ## `process_single_or_subprogram` -/

/-- Parser state of `process_single_or_subprogram`: the local variables of the
source function.  `rows_opened` is a ghost counter (not in the source) that
counts how many rows have ever been opened, used only to state properties
about runs that accumulate no row; no source-modelled field depends on it. -/
structure PState where
  started : Bool
  out_lines : List String
  col1 : List String
  col2 : List String
  section_title : List String
  section_desc : List String
  rows_opened : Nat
deriving DecidableEq, Repr

/-- The initial parser state. -/
def initPState : PState :=
  { started := false, out_lines := [], col1 := [], col2 := [],
    section_title := [], section_desc := [], rows_opened := 0 }

/-- Label-column width computed at flush time:
`col1_width = 1 + max([len(X) for X in col1]) + 4`. -/
def col1Width (col1 : List String) : Nat :=
  1 + pyMax (col1.map String.length) + 4

/-- Python `col2[-1] += s`: `none` models the `IndexError` on an empty list. -/
def appendToLast (s : String) : List String → Option (List String)
  | [] => none
  | [x] => some [x ++ s]
  | x :: xs => (appendToLast s xs).map (x :: ·)

/-- The body of the blank-line branch: close the table and write out the
previous section if both column buffers are nonempty (lines 190-213). -/
def flushSection (indent_size : Nat) (st : PState) : PState :=
  if 0 < st.col1.length ∧ 0 < st.col2.length then
    let c1w := col1Width st.col1
    let c2w := pyMax (st.col2.map String.length)
    let pre := chRepeat ' ' indent_size
    let rule := pre ++ chRepeat '=' c1w ++ " " ++ chRepeat '=' c2w
    let rows := (st.col1.zip st.col2).map (fun c =>
      pre ++ "``" ++ c.1 ++ "``" ++ chRepeat ' ' (1 + c1w - c.1.length) ++ c.2)
    { st with
      out_lines := st.out_lines ++ ["", ""] ++ st.section_title ++ st.section_desc
        ++ [""] ++ [rule, pre ++ "*Option*" ++ chRepeat ' ' (1 + c1w - 8) ++ "*Description*", rule]
        ++ rows ++ [rule, ""],
      section_title := [], section_desc := [], col1 := [], col2 := [] }
  else st

/-- One iteration of the `for line in help_lines` loop of
`process_single_or_subprogram` (lines 188-259), with the branches in source
order. -/
def pyStep (indent_size : Nat) (section_head : Bool) (section_name : String)
    (st : PState) (rawLine : String) : Except PyErr PState :=
  let line := pyRstrip rawLine
  let l := line.data
  if (pyStrip line).length == 0 && st.started then
    .ok (flushSection indent_size st)
  else if pyStartsWith line "positional arguments:" || pyStartsWith line "optional arguments:" then
    let pre := chRepeat ' ' indent_size
    let st1 :=
      if st.started == false then
        { st with
          started := true,
          out_lines := st.out_lines
            ++ (if section_head then
                  [pre ++ section_name, pre ++ chRepeat '-' section_name.length]
                else []) }
      else st
    match matchSectionTitle l with
    | some g =>
      .ok { st1 with section_title :=
        [pre ++ pyCapitalize ⟨g⟩, pre ++ chRepeat '.' g.length] }
    | none => .error .attributeError
  else if (matchSectionTitle l).isSome && !pyStartsWith line "usage:" then
    let pre := chRepeat ' ' indent_size
    match matchSectionTitle l with
    | some g =>
      .ok { st with section_title :=
        [pre ++ pyCapitalize ⟨g⟩, pre ++ chRepeat '\"' g.length] }
    | none => .error .attributeError
  else if matchSectionDesc l && st.started then
    .ok { st with section_desc := st.section_desc ++ [pyStrip line] }
  else if matchOptOnly l && st.started then
    .ok { st with
          col1 := st.col1 ++ [pyStrip line], col2 := st.col2 ++ [""],
          rows_opened := st.rows_opened + 1 }
  else if matchOptPlusArgs l && st.started then
    .ok { st with
          col1 := st.col1 ++ [pyStrip line], col2 := st.col2 ++ [""],
          rows_opened := st.rows_opened + 1 }
  else if matchContinueDesc l && st.started then
    match appendToLast (pyStripNl line) st.col2 with
    | some c2 => .ok { st with col2 := c2 }
    | none => .error .indexError
  else if (matchOptPlusDesc l).isSome && st.started then
    match matchOptPlusDesc l with
    | some lr =>
      .ok { st with
            col1 := st.col1 ++ [⟨lr.1⟩], col2 := st.col2 ++ [⟨lr.2⟩],
            rows_opened := st.rows_opened + 1 }
    | none => .error .attributeError
  else if (matchOptPlusArgsDesc l).isSome && st.started then
    match matchOptPlusArgsDesc l with
    | some lr =>
      .ok { st with
            col1 := st.col1 ++ [⟨lr.1⟩], col2 := st.col2 ++ [⟨lr.2⟩],
            rows_opened := st.rows_opened + 1 }
    | none => .error .attributeError
  else
    .ok st

/-- The whole loop of `process_single_or_subprogram`, starting from a given
state. -/
def runPsosAux (indent_size : Nat) (section_head : Bool) (section_name : String) :
    PState → List String → Except PyErr PState
  | st, [] => .ok st
  | st, l :: ls =>
    match pyStep indent_size section_head section_name st l with
    | .ok st' => runPsosAux indent_size section_head section_name st' ls
    | .error e => .error e

/-- `process_single_or_subprogram` as a run over `initPState`, returning the
final state. -/
def runPsos (help_lines : List String) (indent_size : Nat) (section_head : Bool)
    (section_name : String) : Except PyErr PState :=
  runPsosAux indent_size section_head section_name initPState help_lines

/-- `process_single_or_subprogram(help_lines, indent_size=4, section_head=False,
section_name="Command-line arguments")` (lines 153-261): returns `out_lines`.
There is no flush at end of input; the loop simply ends. -/
def process_single_or_subprogram (help_lines : List String) (indent_size : Nat := 4)
    (section_head : Bool := false)
    (section_name : String := "Command-line arguments") : Except PyErr (List String) :=
  (runPsos help_lines indent_size section_head section_name).map PState.out_lines

/-! ## `process_subprogram_container`, `process_argparser`,
`add_args_to_module_docstring`

The Sphinx application and the subprocess layer are external collaborators.
Invocation of `python -m <module> [sub] --help` is abstracted as an oracle
`fetch` from the command string (the string the source hands to
`shlex.split`) to a `SubprocResult`: what `Popen` + `communicate` can
actually do.  Both `except subprocess.CalledProcessError` handlers of the
source (lines 144-149 and 368-373) are dead code, since neither outcome is
that exception.  Each embedded function returns, besides its `Except`
result, the list of commands it attempted and the list of `app.warn`
messages it emitted, in order. -/

/-- `_SUBCOMMAND_HEADER % (" "*indent_size, " "*indent_size)` split on
newlines (lines 44 and 127). -/
def subHeaderLines (indent_size : Nat) : List String :=
  [chRepeat ' ' indent_size ++ "Subcommand arguments",
   chRepeat ' ' indent_size ++ "--------------------",
   ""]

/-- The scan of lines 128-132: the first line after the marker matching
`subcommand_names` yields the comma-split name list; if no line matches, the
variable `subcommands` is never bound (a `NameError` when it is then used). -/
def findSubcommands : List String → Option (List String)
  | [] => none
  | line :: rest =>
    match matchSubcommandNames (pyStripNl line).data with
    | some g => some ((splitOnChar ',' g).map (fun t => (⟨t⟩ : String)))
    | none => findSubcommands rest

/-- Loop body of `process_subprogram_container` (lines 135-149): run
`python -m <module> <sub> --help` and extend `out_lines` with the parsed
table.  The `except subprocess.CalledProcessError` handler of lines 144-149
is dead code — `Popen`/`communicate` never raise that exception — so a
subcommand that exits non-zero still has its captured (typically empty)
output parsed silently with no `app.warn`, while a failed invocation raises
`OSError` from `Popen`, which nothing catches: it aborts the whole loop.
Any parser exception likewise propagates and stops the loop. -/
def containerStep (fetch : String → SubprocResult) (obj_name : String)
    (indent_size : Nat) (section_head : Bool)
    (acc : List String × List String × Except PyErr (List String)) (sub : String) :
    List String × List String × Except PyErr (List String) :=
  match acc with
  | (calls, warns, .error e) => (calls, warns, .error e)
  | (calls, warns, .ok out) =>
    let cmd := "python -m " ++ obj_name ++ " " ++ sub ++ " --help"
    match fetch cmd with
    | .captured sub_help_lines =>
      match process_single_or_subprogram sub_help_lines indent_size section_head
          ("``" ++ sub ++ "`` subprogram") with
      | .ok tbl => (calls ++ [cmd], warns, .ok (out ++ tbl))
      | .error e2 => (calls ++ [cmd], warns, .error e2)
    | .osError => (calls ++ [cmd], warns, .error .osError)

/-- `process_subprogram_container(app, obj, help_lines, start_line,
indent_size=4, section_head=False)` (lines 91-151), returning
`(commands issued, warnings, result)`. -/
def process_subprogram_container (fetch : String → SubprocResult)
    (obj_name : String) (help_lines : List String) (start_line : Nat)
    (indent_size : Nat := 4) (section_head : Bool := false) :
    List String × List String × Except PyErr (List String) :=
  match findSubcommands (help_lines.drop (start_line + 1)) with
  | none => ([], [], .error .nameError)
  | some subcommands =>
    subcommands.foldl (containerStep fetch obj_name indent_size section_head)
      ([], [], .ok (subHeaderLines indent_size))

/-- The scan of lines 294-298: index of the first line whose
`strip("\n")` equals `subcommands:` (pattern `^subcommands:$`). -/
def findSubcommandsMarker : List String → Option Nat
  | [] => none
  | line :: rest =>
    if pyStripNl line == "subcommands:" then some 0
    else (findSubcommandsMarker rest).map (· + 1)

/-- `process_argparser(app, obj, help_lines, indent_size=4,
section_head=False)` (lines 263-311). -/
def process_argparser (fetch : String → SubprocResult)
    (obj_name : String) (help_lines : List String)
    (indent_size : Nat := 4) (section_head : Bool := false) :
    List String × List String × Except PyErr (List String) :=
  match findSubcommandsMarker help_lines with
  | some n => process_subprogram_container fetch obj_name help_lines n indent_size section_head
  | none => ([], [], process_single_or_subprogram help_lines indent_size section_head)

/-- `_OTHER_HEADER_LINES` (lines 41-42). -/
def _OTHER_HEADER_LINES : List String :=
  ["Script contents", "---------------"]

/-- The value of the `argdoc_main_func` configuration option: in Python it may
be any object; the source only distinguishes strings from everything else. -/
inductive PyConfigVal where
  | pstr (s : String) : PyConfigVal
  | notStr (typeRepr valueRepr : String) : PyConfigVal
deriving DecidableEq, Repr

/-- `add_args_to_module_docstring(app, what, name, obj, options, lines)`
(lines 313-379).  `funcname` is `app.config.argdoc_main_func`; `hasMainFunc`
models `obj.__dict__.get(funcname) is not None`; `mainNoargdoc` models the
`noargdoc` attribute on that function; `lines` is mutated in place in the
source, so the result carries the final list.  When `funcname` is not a
string, line 359 builds the error message but line 360,
`raise ConfigError(message)`, fails at the name lookup itself —
`ConfigError` is never imported or defined in the module — so the branch
raises `NameError` and the message is discarded.  A failed `--help`
invocation raises `OSError` from `Popen`; the `except CalledProcessError`
of line 368 cannot catch it (dead code), so it propagates.  Only
`IndexError` from `process_argparser` is caught (lines 378-379). -/
def add_args_to_module_docstring (funcname : PyConfigVal) (what : String)
    (hasMainFunc : Bool) (mainNoargdoc : Bool) (obj_name : String)
    (fetch : String → SubprocResult) (lines : List String) :
    List String × List String × Except PyErr (List String) :=
  match funcname with
  | .notStr _ _ => ([], [], .error .nameError)
  | .pstr _ =>
    if what == "module" && hasMainFunc then
      if mainNoargdoc == false then
        let cmd := "python -m " ++ obj_name ++ " --help"
        match fetch cmd with
        | .osError => ([cmd], [], .error .osError)
        | .captured help_lines =>
          match process_argparser fetch obj_name help_lines 0 true with
          | (calls2, warns2, .ok out_lines) =>
            (cmd :: calls2, warns2, .ok (lines ++ out_lines ++ _OTHER_HEADER_LINES))
          | (calls2, warns2, .error .indexError) =>
            (cmd :: calls2,
             warns2 ++ ["Error processing argparser into docstring for module "
               ++ obj_name ++ ": "],
             .ok lines)
          | (calls2, warns2, .error e) => (cmd :: calls2, warns2, .error e)
      else ([], [], .ok lines)
    else ([], [], .ok lines)

/-! ## Shared lemmas -/

/-- The running `foldl Nat.max` is at least its initial value. -/
lemma foldl_max_init_le (l : List Nat) (a : Nat) : a ≤ l.foldl Nat.max a := by
  induction l generalizing a with
  | nil => simp
  | cons x xs ih => exact le_trans (Nat.le_max_left a x) (ih (Nat.max a x))

/-- Every member is at most the running `foldl Nat.max`. -/
lemma mem_le_foldl_max (l : List Nat) (a n : Nat) (h : n ∈ l) : n ≤ l.foldl Nat.max a := by
  induction l generalizing a with
  | nil => cases h
  | cons x xs ih =>
    rcases List.mem_cons.mp h with h1 | h2
    · subst h1; exact le_trans (Nat.le_max_right a n) (foldl_max_init_le xs _)
    · exact ih (Nat.max a x) h2

/-- Every member is at most `pyMax`. -/
lemma le_pyMax (l : List Nat) (n : Nat) (h : n ∈ l) : n ≤ pyMax l :=
  mem_le_foldl_max l 0 n h

/-- `appendToLast` preserves length. -/
lemma appendToLast_len (s : String) (l : List String) :
    ∀ l', appendToLast s l = some l' → l'.length = l.length := by
  induction l with
  | nil => intro l' h; simp [appendToLast] at h
  | cons x xs ih =>
    intro l' h
    cases xs with
    | nil =>
      simp only [appendToLast, Option.some.injEq] at h
      subst h; rfl
    | cons y ys =>
      have heq : appendToLast s (x :: y :: ys)
          = (appendToLast s (y :: ys)).map (fun t => x :: t) := rfl
      rw [heq] at h
      obtain ⟨a, ha, rfl⟩ := Option.map_eq_some'.mp h
      simp [ih a ha]

/-- `appendToLast` on a list with explicit last element. -/
lemma appendToLast_concat (s : String) (ds : List String) (d : String) :
    appendToLast s (ds ++ [d]) = some (ds ++ [d ++ s]) := by
  induction ds with
  | nil => rfl
  | cons x xs ih =>
    cases hxs : xs ++ [d] with
    | nil => exact absurd hxs (by simp)
    | cons y rest =>
      have heq : appendToLast s (x :: y :: rest)
          = (appendToLast s (y :: rest)).map (fun t => x :: t) := rfl
      rw [List.cons_append, hxs, heq, ← hxs, ih]
      simp

/-! ## Claims -/

/-- C9: for every flushed section, the label-column width
`1 + max(len) + 4` is at least each label length plus the fixed padding 5,
so the rendered label (4 markup characters) fits with at least one space
before the description column. -/
theorem claim_C9 (col1 : List String) (s : String) (h : s ∈ col1) :
    s.length + 5 ≤ col1Width col1 := by
  unfold col1Width
  have hs : s.length ≤ pyMax (col1.map String.length) :=
    le_pyMax _ _ (List.mem_map_of_mem String.length h)
  omega

/-- Witness for C9 at a concrete section. -/
theorem claim_C9_witness : ("-h, --help" : String).length + 5 ≤ col1Width ["-h, --help"] :=
  claim_C9 ["-h, --help"] "-h, --help" (by simp)

/-- Case analysis on a successful `pyStep`: it either flushes, or leaves the
column buffers, row counter and (up to the optional heading) the output
unchanged, or opens exactly one row in each column buffer, or rewrites the
last description via `appendToLast`. -/
lemma pyStep_shape (i : Nat) (b : Bool) (n : String) (st : PState) (line : String)
    (st' : PState) (h : pyStep i b n st line = .ok st') :
    st' = flushSection i st
    ∨ (st'.col1 = st.col1 ∧ st'.col2 = st.col2 ∧ st'.rows_opened = st.rows_opened
        ∧ (st'.out_lines = st.out_lines
            ∨ (st'.out_lines = st.out_lines
                ++ [chRepeat ' ' i ++ n, chRepeat ' ' i ++ chRepeat '-' n.length] ∧ b = true)))
    ∨ (∃ x y, st'.col1 = st.col1 ++ [x] ∧ st'.col2 = st.col2 ++ [y]
        ∧ st'.rows_opened = st.rows_opened + 1 ∧ st'.out_lines = st.out_lines)
    ∨ (∃ c2, appendToLast (pyStripNl (pyRstrip line)) st.col2 = some c2
        ∧ st'.col1 = st.col1 ∧ st'.col2 = c2 ∧ st'.rows_opened = st.rows_opened
        ∧ st'.out_lines = st.out_lines) := by
  simp only [pyStep] at h
  split at h
  · cases h; exact Or.inl rfl
  · split at h
    · -- canonical section header
      split at h
      · -- title matched
        cases h
        split
        next =>
          refine Or.inr (Or.inl ⟨rfl, rfl, rfl, ?_⟩)
          split
          next hb => exact Or.inr ⟨rfl, hb⟩
          next => exact Or.inl (by simp)
        next => exact Or.inr (Or.inl ⟨rfl, rfl, rfl, Or.inl rfl⟩)
      · cases h
    · split at h
      · -- generic section title
        split at h
        · cases h; exact Or.inr (Or.inl ⟨rfl, rfl, rfl, Or.inl rfl⟩)
        · cases h
      · split at h
        · -- section description
          cases h; exact Or.inr (Or.inl ⟨rfl, rfl, rfl, Or.inl rfl⟩)
        · split at h
          · -- opt_only
            cases h; exact Or.inr (Or.inr (Or.inl ⟨_, _, rfl, rfl, rfl, rfl⟩))
          · split at h
            · -- opt_plus_args
              cases h; exact Or.inr (Or.inr (Or.inl ⟨_, _, rfl, rfl, rfl, rfl⟩))
            · split at h
              · -- continuation line
                split at h
                next c2 hc2 =>
                  cases h
                  exact Or.inr (Or.inr (Or.inr ⟨c2, hc2, rfl, rfl, rfl, rfl⟩))
                next => cases h
              · split at h
                · -- opt_plus_desc
                  split at h
                  · cases h; exact Or.inr (Or.inr (Or.inl ⟨_, _, rfl, rfl, rfl, rfl⟩))
                  · cases h
                · split at h
                  · -- opt_plus_args_desc
                    split at h
                    · cases h; exact Or.inr (Or.inr (Or.inl ⟨_, _, rfl, rfl, rfl, rfl⟩))
                    · cases h
                  · -- unrecognized line
                    cases h; exact Or.inr (Or.inl ⟨rfl, rfl, rfl, Or.inl rfl⟩)

/-- C10: every branch of the line loop keeps the label and description
buffers the same length: a successful step from a state with equally long
`col1` and `col2` yields a state with equally long `col1` and `col2`. -/
theorem claim_C10 (indent_size : Nat) (section_head : Bool) (section_name : String)
    (st : PState) (rawLine : String) (st' : PState)
    (h : pyStep indent_size section_head section_name st rawLine = .ok st')
    (hlen : st.col1.length = st.col2.length) :
    st'.col1.length = st'.col2.length := by
  rcases pyStep_shape _ _ _ _ _ _ h with
    h1 | ⟨h1, h2, -, -⟩ | ⟨x, y, h1, h2, -, -⟩ | ⟨c2, hc2, h1, h2, -, -⟩
  · subst h1
    unfold flushSection
    split <;> simp [hlen]
  · rw [h1, h2]; exact hlen
  · rw [h1, h2]; simp [hlen]
  · rw [h1, h2, appendToLast_len _ _ _ hc2]; exact hlen

/-- Witness for C10: one step over an option-only line. -/
theorem claim_C10_witness :
    ({ initPState with started := true, col1 := ["-h"], col2 := [""], rows_opened := 1 } : PState).col1.length
      = ({ initPState with started := true, col1 := ["-h"], col2 := [""], rows_opened := 1 } : PState).col2.length :=
  claim_C10 4 false "X" { initPState with started := true } "  -h"
    { initPState with started := true, col1 := ["-h"], col2 := [""], rows_opened := 1 }
    (by decide) rfl

/-- C1 (counterexample): a continuation line reached with parsing started and
no open row makes `process_single_or_subprogram` raise `IndexError`
(`col2[-1]` on an empty list) instead of being a no-op. -/
theorem claim_C1_counterexample :
    process_single_or_subprogram ["optional arguments:", "                        x"]
      = .error .indexError := by decide

/-- C1 (amended): when a continuation-of-description line is encountered while
parsing has started and the description buffer is empty, the step raises
`IndexError`; the line is not ignored and the call does not return normally. -/
theorem claim_C1_amended (indent_size : Nat) (section_head : Bool) (section_name : String)
    (st : PState) (rawLine : String)
    (hstart : st.started = true) (hcol2 : st.col2 = [])
    (hblank : (pyStrip (pyRstrip rawLine)).length ≠ 0)
    (hpos : pyStartsWith (pyRstrip rawLine) "positional arguments:" = false)
    (hopt : pyStartsWith (pyRstrip rawLine) "optional arguments:" = false)
    (htitle : matchSectionTitle (pyRstrip rawLine).data = none)
    (hsd : matchSectionDesc (pyRstrip rawLine).data = false)
    (hoo : matchOptOnly (pyRstrip rawLine).data = false)
    (hoa : matchOptPlusArgs (pyRstrip rawLine).data = false)
    (hcd : matchContinueDesc (pyRstrip rawLine).data = true) :
    pyStep indent_size section_head section_name st rawLine = .error .indexError := by
  simp [pyStep, hstart, hcol2, hblank, hpos, hopt, htitle, hsd, hoo, hoa, hcd, appendToLast]

/-- Witness for C1 (amended) at a concrete state and line. -/
theorem claim_C1_witness :
    pyStep 4 false "Command-line arguments" { initPState with started := true }
      "                        y" = .error .indexError :=
  claim_C1_amended 4 false "Command-line arguments" { initPState with started := true }
    "                        y" rfl rfl (by decide) (by decide) (by decide) (by decide)
    (by decide) (by decide) (by decide) (by decide)

/-- C2 (counterexample): a generic `name:` line is classified as a section
title even before any canonical header has been seen — stepping the initial
state (`started = false`) over `"foo:"` installs a pending generic section
title. -/
theorem claim_C2_counterexample :
    pyStep 4 false "Command-line arguments" initPState "foo:"
        = .ok { initPState with section_title := ["    Foo", "    \"\"\""] }
      ∧ initPState.started = false := by
  constructor
  · decide
  · rfl

/-- C2 (amended): a `name:` line (word characters then a colon, not beginning
with the usage token) sets the pending generic section title regardless of
whether option/positional parsing has started: the branch does not consult
the `started` flag. -/
theorem claim_C2_amended (indent_size : Nat) (section_head : Bool) (section_name : String)
    (st : PState) (rawLine : String) (g : List Char)
    (hblank : ((pyStrip (pyRstrip rawLine)).length == 0 && st.started) = false)
    (hpos : pyStartsWith (pyRstrip rawLine) "positional arguments:" = false)
    (hopt : pyStartsWith (pyRstrip rawLine) "optional arguments:" = false)
    (htitle : matchSectionTitle (pyRstrip rawLine).data = some g)
    (husage : pyStartsWith (pyRstrip rawLine) "usage:" = false) :
    pyStep indent_size section_head section_name st rawLine
      = .ok { st with section_title :=
          [chRepeat ' ' indent_size ++ pyCapitalize ⟨g⟩,
           chRepeat ' ' indent_size ++ chRepeat '\"' g.length] } := by
  simp [pyStep, hblank, hpos, hopt, htitle, husage]

/-- Witness for C2 (amended): the branch fires from a not-started state. -/
theorem claim_C2_witness :
    pyStep 2 false "X" initPState "extras:"
      = .ok { initPState with section_title := ["  Extras", "  \"\"\"\"\"\""] } :=
  claim_C2_amended 2 false "X" initPState "extras:" "extras".data
    (by decide) (by decide) (by decide) (by decide) (by decide)

/-- C3 (counterexample): the text appended by a continuation line is not the
stripped line — the leading 24-space indentation survives into the
description (`write` + 24 spaces + `more`, not `writemore`). -/
theorem claim_C3_counterexample :
    process_single_or_subprogram
        ["optional arguments:", "  -o  write", "                        more", ""]
      = .ok ["", "",
             "    Optional arguments",
             "    ..................",
             "",
             "    " ++ chRepeat '=' 7 ++ " " ++ chRepeat '=' 33,
             "    *Option**Description*",
             "    " ++ chRepeat '=' 7 ++ " " ++ chRepeat '=' 33,
             "    ``-o``      write                        more",
             "    " ++ chRepeat '=' 7 ++ " " ++ chRepeat '=' 33,
             ""] := by decide

/-- C3 (amended): a continuation line processed while a row is open appends
`line.strip("\n")` — the right-stripped line itself, leading indentation
included — to the most recently opened row's description, with no separating
space. -/
theorem claim_C3_amended (indent_size : Nat) (section_head : Bool) (section_name : String)
    (st : PState) (rawLine : String) (ds : List String) (d : String)
    (hstart : st.started = true) (hcol2 : st.col2 = ds ++ [d])
    (hblank : (pyStrip (pyRstrip rawLine)).length ≠ 0)
    (hpos : pyStartsWith (pyRstrip rawLine) "positional arguments:" = false)
    (hopt : pyStartsWith (pyRstrip rawLine) "optional arguments:" = false)
    (htitle : matchSectionTitle (pyRstrip rawLine).data = none)
    (hsd : matchSectionDesc (pyRstrip rawLine).data = false)
    (hoo : matchOptOnly (pyRstrip rawLine).data = false)
    (hoa : matchOptPlusArgs (pyRstrip rawLine).data = false)
    (hcd : matchContinueDesc (pyRstrip rawLine).data = true) :
    pyStep indent_size section_head section_name st rawLine
      = .ok { st with col2 := ds ++ [d ++ pyStripNl (pyRstrip rawLine)] } := by
  simp [pyStep, hstart, hcol2, hblank, hpos, hopt, htitle, hsd, hoo, hoa, hcd,
    appendToLast_concat]

/-- Witness for C3 (amended) at a concrete open row. -/
theorem claim_C3_witness :
    pyStep 4 false "Command-line arguments"
        { initPState with started := true, col1 := ["-o"], col2 := ["write"] }
        "                        more"
      = .ok { initPState with
              started := true, col1 := ["-o"],
              col2 := ["write                        more"] } :=
  claim_C3_amended 4 false "Command-line arguments"
    { initPState with started := true, col1 := ["-o"], col2 := ["write"] }
    "                        more" [] "write" rfl rfl (by decide) (by decide) (by decide)
    (by decide) (by decide) (by decide) (by decide) (by decide)

/-- The invariant behind C5: a state that has opened no row has emitted
nothing and holds empty column buffers. -/
def NoRowsClean (st : PState) : Prop :=
  st.rows_opened = 0 → st.out_lines = [] ∧ st.col1 = [] ∧ st.col2 = []

/-- `rows_opened` never decreases along a successful step. -/
lemma pyStep_rows_mono (i : Nat) (b : Bool) (n : String) (st : PState) (line : String)
    (st' : PState) (h : pyStep i b n st line = .ok st') :
    st.rows_opened ≤ st'.rows_opened := by
  rcases pyStep_shape _ _ _ _ _ _ h with
    h1 | ⟨-, -, h3, -⟩ | ⟨x, y, -, -, h3, -⟩ | ⟨c2, -, -, -, h3, -⟩
  · subst h1
    unfold flushSection
    split <;> simp
  · omega
  · omega
  · omega

/-- With the section-heading flag off, a successful step preserves
`NoRowsClean`. -/
lemma pyStep_norows (i : Nat) (n : String) (st : PState) (line : String)
    (st' : PState) (h : pyStep i false n st line = .ok st') (hI : NoRowsClean st) :
    NoRowsClean st' := by
  intro hr0
  have hst0 : st.rows_opened = 0 := by
    have := pyStep_rows_mono _ _ _ _ _ _ h; omega
  obtain ⟨ho, h1, h2⟩ := hI hst0
  rcases pyStep_shape _ _ _ _ _ _ h with
    hs | ⟨c1, c2, -, hout⟩ | ⟨x, y, -, -, hr, -⟩ | ⟨c2, hap, -, -, -, -⟩
  · subst hs
    unfold flushSection
    split
    next hcond => rw [h1] at hcond; simp at hcond
    next => exact ⟨ho, h1, h2⟩
  · rcases hout with hout | ⟨-, hb⟩
    · exact ⟨by rw [hout, ho], by rw [c1, h1], by rw [c2, h2]⟩
    · cases hb
  · rw [hst0] at hr; rw [hr] at hr0; cases hr0
  · rw [h2] at hap; simp [appendToLast] at hap

/-- `NoRowsClean` is preserved along a whole run with the heading flag off. -/
lemma runPsosAux_norows (i : Nat) (n : String) :
    ∀ (hl : List String) (st st' : PState),
      runPsosAux i false n st hl = .ok st' → NoRowsClean st → NoRowsClean st' := by
  intro hl
  induction hl with
  | nil => intro st st' h hI; simp only [runPsosAux] at h; cases h; exact hI
  | cons l ls ih =>
    intro st st' h hI
    simp only [runPsosAux] at h
    split at h
    next st1 hst1 => exact ih st1 st' h (pyStep_norows _ _ _ _ _ hst1 hI)
    next => cases h

/-- C5 (amended): with the section-heading flag off (its default), every run
of `process_single_or_subprogram` that returns normally having opened no row
produces empty output. -/
theorem claim_C5_amended (help_lines : List String) (indent_size : Nat)
    (section_name : String) (st : PState)
    (h : runPsos help_lines indent_size false section_name = .ok st)
    (hrows : st.rows_opened = 0) :
    process_single_or_subprogram help_lines indent_size false section_name = .ok [] := by
  have hclean : NoRowsClean st :=
    runPsosAux_norows _ _ help_lines initPState st h (fun _ => ⟨rfl, rfl, rfl⟩)
  obtain ⟨ho, -, -⟩ := hclean hrows
  unfold process_single_or_subprogram
  rw [h]
  simp [Except.map, ho]

/-- Witness for C5 (amended) on a run with no recognized lines. -/
theorem claim_C5_witness :
    process_single_or_subprogram ["hello"] 4 false "X" = .ok [] :=
  claim_C5_amended ["hello"] 4 "X" initPState (by decide) rfl

/-- C5 (counterexample): with the section-heading flag on, the fixed section
heading is emitted as soon as parsing starts, even though no section ever
accumulates a row, so the output is not empty. -/
theorem claim_C5_counterexample :
    process_single_or_subprogram ["optional arguments:"] 4 true "Command-line arguments"
      = .ok ["    Command-line arguments", "    ----------------------"] := by decide

/-- C6 (counterexample): a non-string `argdoc_main_func` makes
`add_args_to_module_docstring` fail with `NameError`, not with a
configuration error: line 360 raises `ConfigError`, a name never imported
or defined in the module, so the raise itself fails at the name lookup.
No command is issued. -/
theorem claim_C6_counterexample :
    add_args_to_module_docstring (.notStr "<type 'int'>" "5") "module" true false
        "mymod" (fun _ => .captured [""]) []
      = ([], [], .error .nameError) := rfl

/-- C6 (amended): for every non-string `argdoc_main_func`, the call fails —
with the `NameError` from the unbound name `ConfigError`, not with a
configuration error — before any subprocess invocation is attempted: the
command log is empty. -/
theorem claim_C6_amended (typeRepr valueRepr what : String)
    (hasMainFunc mainNoargdoc : Bool) (obj_name : String)
    (fetch : String → SubprocResult) (lines : List String) :
    add_args_to_module_docstring (.notStr typeRepr valueRepr) what hasMainFunc
        mainNoargdoc obj_name fetch lines
      = ([], [], .error .nameError) := rfl

/-- C7: the end-to-end scenario of the specification, producing the
"Optional arguments" section with its single `-h, --help` row. -/
theorem claim_C7 :
    process_single_or_subprogram
        ["usage: prog [-h]", "", "optional arguments:",
         "  -h, --help  show this help message and exit", ""]
      = .ok ["", "",
             "    Optional arguments",
             "    ..................",
             "",
             "    " ++ chRepeat '=' 15 ++ " " ++ chRepeat '=' 31,
             "    *Option*        *Description*",
             "    " ++ chRepeat '=' 15 ++ " " ++ chRepeat '=' 31,
             "    ``-h, --help``      show this help message and exit",
             "    " ++ chRepeat '=' 15 ++ " " ++ chRepeat '=' 31,
             ""] := by decide

/-- C4 (code evaluated at the failing inputs): the skip-warn-continue the
claim describes never happens.  When invoking subcommand `a` fails at the
OS level, the `OSError` propagates uncaught — nothing is reported to
`app.warn`, `b` is never fetched, and the container call does not return
normally.  When `a` merely exits non-zero (captured empty output), its
output is parsed silently: it contributes no table, but again no diagnostic
is reported and the dead `except CalledProcessError` handler never runs. -/
theorem claim_C4 :
    (process_subprogram_container
        (fun c => if c == "python -m m b --help" then .captured [""] else .osError)
        "m" ["subcommands:", "  \x7ba,b\x7d"] 0 4 false
      = (["python -m m a --help"], [], .error .osError))
    ∧ (process_subprogram_container (fun _ => .captured [""])
        "m" ["subcommands:", "  \x7ba,b\x7d"] 0 4 false
      = (["python -m m a --help", "python -m m b --help"], [],
         .ok (subHeaderLines 4))) := by
  constructor
  · decide
  · decide

/-- C8: given the marker line and the bracketed list `{add,remove}`, the
dispatcher issues exactly one fetch per listed name, in listed order, and the
rendered subcommand tables follow the header in that same order. -/
theorem claim_C8 (fetch : String → SubprocResult) (obj_name : String)
    (indent_size : Nat) (section_head : Bool) (la lr oa orr : List String)
    (hadd : fetch ("python -m " ++ obj_name ++ " " ++ "add" ++ " --help") = .captured la)
    (hpa : process_single_or_subprogram la indent_size section_head
        ("``" ++ "add" ++ "`` subprogram") = .ok oa)
    (hrem : fetch ("python -m " ++ obj_name ++ " " ++ "remove" ++ " --help") = .captured lr)
    (hpr : process_single_or_subprogram lr indent_size section_head
        ("``" ++ "remove" ++ "`` subprogram") = .ok orr) :
    process_subprogram_container fetch obj_name ["subcommands:", "  \x7badd,remove\x7d"] 0
        indent_size section_head
      = (["python -m " ++ obj_name ++ " " ++ "add" ++ " --help",
          "python -m " ++ obj_name ++ " " ++ "remove" ++ " --help"],
         [],
         .ok (subHeaderLines indent_size ++ oa ++ orr)) := by
  unfold process_subprogram_container
  rw [show findSubcommands (["subcommands:", "  \x7badd,remove\x7d"].drop (0 + 1))
      = some ["add", "remove"] from by decide]
  simp only [List.foldl, containerStep, hadd, hpa, hrem, hpr]
  simp [List.append_assoc]

/-- Witness for C8 with a concrete oracle. -/
theorem claim_C8_witness :
    process_subprogram_container (fun _ => .captured [""]) "m"
        ["subcommands:", "  \x7badd,remove\x7d"] 0 4 false
      = (["python -m m add --help", "python -m m remove --help"],
         [],
         .ok (subHeaderLines 4 ++ [] ++ [])) :=
  claim_C8 (fun _ => .captured [""]) "m" 4 false [""] [""] [] []
    (by decide) (by decide) (by decide) (by decide)
